import Mathlib

/-!
Shallow embedding of the `qemu-launch` crate (src/config.rs, src/types.rs,
src/device.rs, src/qemu.rs): the configuration record, the per-domain
`add_*` operations, the top-level `build_all` compiler, the descriptor
allocator `append_fds`, and the launcher `Qemu::launch`.

Machine integers: the Rust `u32` fields are modelled as `Nat`; the only
place where `u32` wrap-around can occur is the product
`smp.sockets * smp.cores * smp.threads` inside `add_smp`'s `assert_eq!`,
which is modelled with an explicit `% 2^32` (release-mode wrapping
semantics).  `RawFd` (`i32`) is modelled as `Int`.

Panics (`assert_eq!`, `.expect`) are modelled as explicit result
constructors, kept distinct from `Result::Err` values returned normally
to the caller.
-/

namespace QemuLaunch

/-- Embeds `types.rs` `Machine`: machine type, acceleration, options. -/
structure Machine where
  machine_type : String
  acceleration : String
  options : String
deriving DecidableEq

/-- Embeds `types.rs` `Rtc`: base, clock, drift_fix. -/
structure Rtc where
  base : String
  clock : String
  drift_fix : String
deriving DecidableEq

/-- Embeds `Rtc::valid`: clock must be host/rt/vm and drift_fix slew/none. -/
def Rtc.valid (r : Rtc) : Bool :=
  let clock_valid := r.clock = "host" || r.clock = "rt" || r.clock = "vm"
  let drift_fix_valid := r.drift_fix = "slew" || r.drift_fix = "none"
  clock_valid && drift_fix_valid

/-- Embeds `types.rs` `QmpSocket`. -/
structure QmpSocket where
  socket_type : String
  name : String
  is_server : Bool
  no_wait : Bool
deriving DecidableEq

/-- Embeds `QmpSocket::valid`: non-empty type and name, type must be "unix". -/
def QmpSocket.valid (s : QmpSocket) : Bool :=
  if s.socket_type = "" || s.name = "" then false
  else if s.socket_type ≠ "unix" then false
  else true

/-- Embeds `types.rs` `Kernel`. -/
structure Kernel where
  path : String
  initrd_path : String
  params : String
deriving DecidableEq

/-- Embeds `types.rs` `Smp` (`u32` fields as `Nat`). -/
structure Smp where
  cpus : Nat
  cores : Nat
  threads : Nat
  sockets : Nat
  max_cpus : Nat
deriving DecidableEq

/-- Embeds `types.rs` `Memory`. -/
structure Memory where
  size : String
  slots : Nat
  max_memory : String
  path : String
deriving DecidableEq

/-- Embeds `types.rs` `Knobs`: the boolean switch set. -/
structure Knobs where
  no_user_config : Bool
  no_defaults : Bool
  no_graphic : Bool
  demonized : Bool
  hugepages : Bool
  mem_prealloc : Bool
  file_backed_mem : Bool
  mem_shared : Bool
  mlock : Bool
  stopped : Bool
  no_reboot : Bool
  no_shutdown : Bool
  iommu_platform : Bool
deriving DecidableEq

/-- Embeds `types.rs` `IoThread`. -/
structure IoThread where
  id : String
deriving DecidableEq

/-- Embeds `types.rs` `Incoming`: migration type, raw fd, exec command. -/
structure Incoming where
  migration_type : String
  fd : Int
  exec : String
deriving DecidableEq

/-- Embeds `types.rs` `FwCfg`. -/
structure FwCfg where
  name : String
  file : String
  str : String
deriving DecidableEq

/-- Embeds `FwCfg::valid`: non-empty name, exactly one of file/str set. -/
def FwCfg.valid (f : FwCfg) : Bool :=
  if f.name = "" then false
  else if f.file ≠ "" && f.str ≠ "" then false
  else if f.file = "" && f.str = "" then false
  else true

/-- Models the `device.rs` `Device` trait object: `valid` is the
`Device::valid` answer, and `params` is the token list that
`Device::set_qemu_params` appends to the configuration's argument buffer
(that method's documented effect is to "plug the param into config"; every
concrete implementation in `device.rs` is an `unimplemented!()` stub). -/
structure Device where
  valid : Bool
  params : List String
deriving DecidableEq

/-- Models a `uuid::Uuid` value as used by `add_uuid`: only its nil test
and its rendered string are consumed by the compiler. -/
structure Uuid where
  is_nil : Bool
  text : String
deriving DecidableEq

/-- Embeds `config.rs` `QemuConfig`, field for field. -/
structure QemuConfig where
  bin_path : String
  uid : Nat
  gid : Nat
  groups : List Nat
  name : String
  uuid : String
  cpu_model : String
  seccomp_sandbox : String
  machine : Machine
  qmp_sockets : List QmpSocket
  devices : List Device
  rtc : Rtc
  vga : String
  kernel : Kernel
  memory : Memory
  smp : Smp
  global_params : String
  knobs : Knobs
  bios : String
  no_graphic : Bool
  pflashs : List String
  incoming : Incoming
  fds : List Int
  fw_cfgs : List FwCfg
  io_threads : List IoThread
  pid_file : String
  log_file : String
  qemu_params : List String
deriving DecidableEq

/-- Serde/`Default` default for `Machine`. -/
def Machine.builder : Machine := ⟨"", "", ""⟩

/-- Serde/`Default` default for `Rtc`. -/
def Rtc.builder : Rtc := ⟨"", "", ""⟩

/-- Serde/`Default` default for `Kernel`. -/
def Kernel.builder : Kernel := ⟨"", "", ""⟩

/-- Serde/`Default` default for `Smp`. -/
def Smp.builder : Smp := ⟨0, 0, 0, 0, 0⟩

/-- Serde/`Default` default for `Memory`. -/
def Memory.builder : Memory := ⟨"", 0, "", ""⟩

/-- Serde/`Default` default for `Knobs`. -/
def Knobs.builder : Knobs :=
  ⟨false, false, false, false, false, false, false, false, false, false,
   false, false, false⟩

/-- Serde/`Default` default for `Incoming`. -/
def Incoming.builder : Incoming := ⟨"", 0, ""⟩

/-- Embeds `QemuConfig::builder()`: the all-defaults configuration. -/
def QemuConfig.builder : QemuConfig :=
  { bin_path := "", uid := 0, gid := 0, groups := [], name := "",
    uuid := "", cpu_model := "", seccomp_sandbox := "",
    machine := Machine.builder, qmp_sockets := [], devices := [],
    rtc := Rtc.builder, vga := "", kernel := Kernel.builder,
    memory := Memory.builder, smp := Smp.builder, global_params := "",
    knobs := Knobs.builder, bios := "", no_graphic := false,
    pflashs := [], incoming := Incoming.builder, fds := [],
    fw_cfgs := [], io_threads := [], pid_file := "", log_file := "",
    qemu_params := [] }

/-- Embeds the `Clone` impl for `QemuConfig`: every field is cloned except
`devices`, which is reset to the empty vector. -/
def cloneConfig (self : QemuConfig) : QemuConfig :=
  { self with devices := [] }

/-! ### Per-domain token contributions

Each `add_*` method of `config.rs` conditionally pushes tokens onto
`self.qemu_params` and leaves every other field unchanged (the single
exception, `add_incoming`, also grows `self.fds`).  Each method is embedded
as an append of its domain's token contribution; the contribution function
carries the conditional logic of the source method. -/

/-- Token contribution of `add_cpu_model`. -/
def cpuModelParams (cpu_model : String) : List String :=
  if cpu_model ≠ "" then ["-cpu", cpu_model] else []

/-- Embeds `QemuConfig::add_cpu_model`. -/
def addCpuModel (cfg : QemuConfig) (cpu_model : String) : QemuConfig :=
  { cfg with qemu_params := cfg.qemu_params ++ cpuModelParams cpu_model }

/-- Token contribution of `add_bios`. -/
def biosParams (bios : String) : List String :=
  if bios ≠ "" then ["-bios", bios] else []

/-- Embeds `QemuConfig::add_bios`. -/
def addBios (cfg : QemuConfig) (bios : String) : QemuConfig :=
  { cfg with qemu_params := cfg.qemu_params ++ biosParams bios }

/-- Token contribution of `add_kernel`: kernel path, then initrd, then
boot params, each conditional, all under a non-empty kernel path. -/
def kernelParams (k : Kernel) : List String :=
  if k.path ≠ "" then
    ["-kernel", k.path]
      ++ (if k.initrd_path ≠ "" then ["-initrd", k.initrd_path] else [])
      ++ (if k.params ≠ "" then ["-append", k.params] else [])
  else []

/-- Embeds `QemuConfig::add_kernel`. -/
def addKernel (cfg : QemuConfig) (k : Kernel) : QemuConfig :=
  { cfg with qemu_params := cfg.qemu_params ++ kernelParams k }

/-- Token contribution of `add_machine`: machine type, acceleration and
options, comma-joined into a single value token. -/
def machineParams (m : Machine) : List String :=
  if m.machine_type ≠ "" then
    ["-machine",
     String.intercalate ","
       ([m.machine_type]
         ++ (if m.acceleration ≠ "" then ["accel=" ++ m.acceleration] else [])
         ++ (if m.options ≠ "" then [m.options] else []))]
  else []

/-- Embeds `QemuConfig::add_machine`. -/
def addMachine (cfg : QemuConfig) (m : Machine) : QemuConfig :=
  { cfg with qemu_params := cfg.qemu_params ++ machineParams m }

/-- Token contribution of `add_memory`: size, slots, maxmem, comma-joined. -/
def memoryParams (m : Memory) : List String :=
  if m.size ≠ "" then
    ["-m",
     String.intercalate ","
       ([m.size]
         ++ (if m.slots > 0 then ["slots=" ++ toString m.slots] else [])
         ++ (if m.max_memory ≠ "" then ["maxmem=" ++ m.max_memory] else []))]
  else []

/-- Embeds `QemuConfig::add_memory`. -/
def addMemory (cfg : QemuConfig) (m : Memory) : QemuConfig :=
  { cfg with qemu_params := cfg.qemu_params ++ memoryParams m }

/-- Token contribution of `add_name`. -/
def nameParams (name : String) : List String :=
  if name ≠ "" then ["-name", name] else []

/-- Embeds `QemuConfig::add_name`. -/
def addName (cfg : QemuConfig) (name : String) : QemuConfig :=
  { cfg with qemu_params := cfg.qemu_params ++ nameParams name }

/-- Token contribution of `add_seccomp`. -/
def seccompParams (seccomp_sandbox : String) : List String :=
  if seccomp_sandbox ≠ "" then ["-sandbox", seccomp_sandbox] else []

/-- Embeds `QemuConfig::add_seccomp`. -/
def addSeccomp (cfg : QemuConfig) (seccomp_sandbox : String) : QemuConfig :=
  { cfg with qemu_params := cfg.qemu_params ++ seccompParams seccomp_sandbox }

/-- Token contribution of `add_uuid`: emitted only for a non-nil uuid. -/
def uuidParams (u : Uuid) : List String :=
  if !u.is_nil then ["-uuid", u.text] else []

/-- Embeds `QemuConfig::add_uuid`. -/
def addUuid (cfg : QemuConfig) (u : Uuid) : QemuConfig :=
  { cfg with qemu_params := cfg.qemu_params ++ uuidParams u }

/-- Token contribution of `add_no_graphic`. -/
def noGraphicParams (no_graphic : Bool) : List String :=
  if no_graphic then ["-nographic"] else []

/-- Embeds `QemuConfig::add_no_graphic`. -/
def addNoGraphic (cfg : QemuConfig) (no_graphic : Bool) : QemuConfig :=
  { cfg with qemu_params := cfg.qemu_params ++ noGraphicParams no_graphic }

/-- Token contribution of `add_rtc`.  Faithful to the source: when the rtc
is valid, exactly ONE token (`base=..`, optional `driftfix=..`, optional
`clock=..`, comma-joined) is pushed — the source pushes no `-rtc` flag
token before the value. -/
def rtcParams (r : Rtc) : List String :=
  if !r.valid then []
  else
    [String.intercalate ","
      (["base=" ++ r.base]
        ++ (if r.drift_fix ≠ "" then ["driftfix=" ++ r.drift_fix] else [])
        ++ (if r.clock ≠ "" then ["clock=" ++ r.clock] else []))]

/-- Embeds `QemuConfig::add_rtc`. -/
def addRtc (cfg : QemuConfig) (r : Rtc) : QemuConfig :=
  { cfg with qemu_params := cfg.qemu_params ++ rtcParams r }

/-- Token contribution of one iteration of the `add_qmp_sockets` loop. -/
def qmpSocketParams (s : QmpSocket) : List String :=
  if !s.valid then []
  else
    ["-qmp",
     String.intercalate ","
       ([s.socket_type ++ ":" ++ s.name]
         ++ (if s.is_server then
               ["server=on"] ++ (if s.no_wait then ["wait=off"] else [])
             else []))]

/-- Token contribution of `add_qmp_sockets`: the loop appends each valid
socket's pair in list order. -/
def qmpSocketsParams (ss : List QmpSocket) : List String :=
  (ss.map qmpSocketParams).flatten

/-- Embeds `QemuConfig::add_qmp_sockets`. -/
def addQmpSockets (cfg : QemuConfig) (ss : List QmpSocket) : QemuConfig :=
  { cfg with qemu_params := cfg.qemu_params ++ qmpSocketsParams ss }

/-- Token contribution of `add_vga`. -/
def vgaParams (vga : String) : List String :=
  if vga ≠ "" then ["-vga", vga] else []

/-- Embeds `QemuConfig::add_vga`. -/
def addVga (cfg : QemuConfig) (vga : String) : QemuConfig :=
  { cfg with qemu_params := cfg.qemu_params ++ vgaParams vga }

/-- Token contribution of one iteration of the `add_io_threads` loop. -/
def ioThreadParams (t : IoThread) : List String :=
  if t.id ≠ "" then ["-object", "iothread,id=" ++ t.id] else []

/-- Token contribution of `add_io_threads`. -/
def ioThreadsParams (ts : List IoThread) : List String :=
  (ts.map ioThreadParams).flatten

/-- Embeds `QemuConfig::add_io_threads`. -/
def addIoThreads (cfg : QemuConfig) (ts : List IoThread) : QemuConfig :=
  { cfg with qemu_params := cfg.qemu_params ++ ioThreadsParams ts }

/-- Embeds `QemuConfig::append_fds`: pushes the raw descriptors onto
`self.fds` and returns the offset descriptors the qemu process will see —
`old_length + i + 3` for the i-th appended descriptor (3 skips stdin,
stdout, stderr). -/
def appendFds (cfg : QemuConfig) (fds : List Int) : QemuConfig × List Int :=
  let old_length := cfg.fds.length
  ({ cfg with fds := cfg.fds ++ fds },
   (List.range fds.length).map fun i => (old_length : Int) + (i : Int) + 3)

/-- Embeds `QemuConfig::add_incoming`: the uri is chosen by migration
type; the fd case consumes one descriptor slot via `append_fds`. -/
def addIncoming (cfg : QemuConfig) (inc : Incoming) : QemuConfig :=
  if inc.migration_type = "exec" then
    { cfg with qemu_params :=
        cfg.qemu_params ++ ["-S", "-incoming", "exec:" ++ inc.exec] }
  else if inc.migration_type = "fd" then
    let r := appendFds cfg [inc.fd]
    { r.1 with qemu_params :=
        r.1.qemu_params ++ ["-S", "-incoming", "fd:" ++ toString (r.2.headD 0)] }
  else if inc.migration_type = "defer" then
    { cfg with qemu_params := cfg.qemu_params ++ ["-S", "-incoming", "defer"] }
  else cfg

/-- Token contribution of `add_incoming`, as a function of the number of
descriptors already appended. -/
def incomingParams (oldFdCount : Nat) (inc : Incoming) : List String :=
  if inc.migration_type = "exec" then ["-S", "-incoming", "exec:" ++ inc.exec]
  else if inc.migration_type = "fd" then
    ["-S", "-incoming", "fd:" ++ toString ((oldFdCount : Int) + 3)]
  else if inc.migration_type = "defer" then ["-S", "-incoming", "defer"]
  else []

/-- Token contribution of `add_pflash_param`. -/
def pflashParams (pflashs : List String) : List String :=
  (pflashs.map fun p => ["-pflash", p]).flatten

/-- Embeds `QemuConfig::add_pflash_param`. -/
def addPflashParam (cfg : QemuConfig) (pflashs : List String) : QemuConfig :=
  { cfg with qemu_params := cfg.qemu_params ++ pflashParams pflashs }

/-- Token contribution of `add_pid_file`. -/
def pidFileParams (pid_file : String) : List String :=
  if pid_file ≠ "" then ["-pidfile", pid_file] else []

/-- Embeds `QemuConfig::add_pid_file`. -/
def addPidFile (cfg : QemuConfig) (pid_file : String) : QemuConfig :=
  { cfg with qemu_params := cfg.qemu_params ++ pidFileParams pid_file }

/-- Token contribution of `add_log_file`. -/
def logFileParams (log_file : String) : List String :=
  if log_file ≠ "" then ["-D", log_file] else []

/-- Embeds `QemuConfig::add_log_file`. -/
def addLogFile (cfg : QemuConfig) (log_file : String) : QemuConfig :=
  { cfg with qemu_params := cfg.qemu_params ++ logFileParams log_file }

/-- Token contribution of `add_global_params`. -/
def globalParamsTokens (global_params : String) : List String :=
  if global_params ≠ "" then ["-global", global_params] else []

/-- Embeds `QemuConfig::add_global_params`. -/
def addGlobalParams (cfg : QemuConfig) (global_params : String) : QemuConfig :=
  { cfg with qemu_params := cfg.qemu_params ++ globalParamsTokens global_params }

/-- Embeds `QemuConfig::is_dimm_supported`: `std::env::consts::ARCH` is
passed in as the ambient `arch` string; the machine type must not be
"microvm" on the allow-listed architectures. -/
def isDimmSupported (arch : String) (machine : Machine) : Bool :=
  if arch = "x86_64" || arch = "powerpc64" || arch = "aarch64" || arch = "x86"
  then machine.machine_type ≠ "microvm"
  else false

/-- Token contribution of `add_knobs_memory` (the memory-related knobs
sub-algorithm): skipped when `memory.size` is empty; otherwise builds the
`-object` backend spec (hugepages take precedence over file-backed memory,
then `share=on` / `prealloc=on` suffixes), then either a `-numa` node
binding or a `-machine memory-backend=` rebinding, depending on
`is_dimm_supported`. -/
def knobsMemoryParams (arch : String) (memory : Memory) (machine : Machine)
    (knobs : Knobs) : List String :=
  if memory.size = "" then []
  else
    let dimm_name := "dimm1"
    let obj_mem_params :=
      if knobs.hugepages then
        "memory-backend-file,id=" ++ dimm_name ++ ",size=" ++ memory.size
          ++ ",mem-path=/dev/hugepages"
      else if knobs.file_backed_mem && memory.path ≠ "" then
        "memory-backend-file,id=" ++ dimm_name ++ ",size=" ++ memory.size
          ++ ",mem_path=" ++ memory.path
      else
        "memory-backend-file,id=" ++ dimm_name ++ ",size=" ++ memory.size
    let obj_mem_params :=
      if knobs.mem_shared then obj_mem_params ++ ",share=on" else obj_mem_params
    let obj_mem_params :=
      if knobs.mem_prealloc then obj_mem_params ++ ",prealloc=on"
      else obj_mem_params
    ["-object", obj_mem_params]
      ++ (if isDimmSupported arch machine then
            ["-numa", "node,memdev=" ++ dimm_name]
          else
            ["-machine", "memory-backend=" ++ dimm_name])

/-- Token contribution of `add_knobs`: the independent boolean flags in
source order, with the `add_knobs_memory` sub-contribution between
`-daemonize` and `-overcommit`. -/
def knobsParams (arch : String) (memory : Memory) (machine : Machine)
    (k : Knobs) : List String :=
  (if k.no_user_config then ["-no-user-config"] else [])
    ++ (if k.no_reboot then ["--no-reboot"] else [])
    ++ (if k.no_graphic then ["-nographic"] else [])
    ++ (if k.no_defaults then ["-nodefaults"] else [])
    ++ (if k.no_shutdown then ["--no-shutdown"] else [])
    ++ (if k.demonized then ["-daemonize"] else [])
    ++ knobsMemoryParams arch memory machine k
    ++ (if k.mlock then ["-overcommit", "mem-lock=on"] else [])
    ++ (if k.stopped then ["-S"] else [])

/-- Embeds `QemuConfig::add_knobs` (its `add_knobs_memory` step reads the
receiver's own `memory` and `machine` fields). -/
def addKnobs (arch : String) (cfg : QemuConfig) (k : Knobs) : QemuConfig :=
  { cfg with qemu_params :=
      cfg.qemu_params ++ knobsParams arch cfg.memory cfg.machine k }

/-- Outcome of `add_smp`: a normal `Ok` value, a normal `Err` value
returned to the caller (`anyhow!`), or a process abort raised by the
`assert_eq!` macro. -/
inductive SmpResult where
  | ok (cfg : QemuConfig)
  | err (msg : String)
  | assertFailed
deriving DecidableEq

/-- The comma-joined `-smp` value: cpus, then cores/threads/sockets/maxcpus
`key=value` fragments, each only when nonzero. -/
def smpValue (smp : Smp) : List String :=
  [toString smp.cpus]
    ++ (if smp.cores > 0 then ["cores=" ++ toString smp.cores] else [])
    ++ (if smp.threads > 0 then ["threads=" ++ toString smp.threads] else [])
    ++ (if smp.sockets > 0 then ["sockets=" ++ toString smp.sockets] else [])
    ++ (if smp.max_cpus > 0 then ["maxcpus=" ++ toString smp.max_cpus] else [])

/-- Token contribution of a successful `add_smp`. -/
def smpParams (smp : Smp) : List String :=
  if smp.cpus > 0 then ["-smp", String.intercalate "," (smpValue smp)] else []

/-- Embeds `QemuConfig::add_smp`.  The whole body is guarded by
`cpus > 0`.  The source returns `Err` (inside the `max_cpus > 0` branch,
before the assertion is reached) when `max_cpus < cpus`; otherwise the
unconditional `assert_eq!(sockets * cores * threads, max_cpus)` runs — the
`u32` product is taken modulo `2^32` — and only when it holds are the two
`-smp` tokens pushed.  Hoisting the error test and the assertion above the
token pushes is behavior-preserving: the pushes build a local vector that
is only consumed after both checks. -/
def addSmp (cfg : QemuConfig) (smp : Smp) : SmpResult :=
  if smp.cpus > 0 then
    if smp.max_cpus > 0 && smp.max_cpus < smp.cpus then
      .err "smp.max_cpus should >= smp.cpus"
    else if (smp.sockets * smp.cores * smp.threads) % 2 ^ 32 = smp.max_cpus then
      .ok { cfg with qemu_params :=
              cfg.qemu_params ++ ["-smp", String.intercalate "," (smpValue smp)] }
    else .assertFailed
  else .ok cfg

/-- Token contribution of `add_devices`: each valid device appends its own
parameter tokens; invalid devices are skipped. -/
def devicesParams (ds : List Device) : List String :=
  (ds.map fun d => if d.valid then d.params else []).flatten

/-- Embeds `QemuConfig::add_devices`. -/
def addDevices (cfg : QemuConfig) (ds : List Device) : QemuConfig :=
  { cfg with qemu_params := cfg.qemu_params ++ devicesParams ds }

/-- Token contribution of `FwCfg::qemu_params`: the `-fw_cfg` flag and the
comma-joined name/file/string fragments. -/
def fwCfgTokens (f : FwCfg) : List String :=
  ["-fw_cfg",
   String.intercalate ","
     ((if f.name ≠ "" then ["name=" ++ f.name] else [])
       ++ (if f.file ≠ "" then ["file=" ++ f.file] else [])
       ++ (if f.str ≠ "" then ["string=" ++ f.str] else []))]

/-- Embeds `QemuConfig::add_fwcfg`: each valid entry contributes its
tokens; invalid entries are skipped.  Note: `build_all` never invokes this
operation. -/
def addFwCfg (cfg : QemuConfig) (fs : List FwCfg) : QemuConfig :=
  { cfg with qemu_params :=
      cfg.qemu_params
        ++ (fs.map fun f => if f.valid then fwCfgTokens f else []).flatten }

/-- Outcome of `build_all`: a compiled configuration, or a process abort
(`panic`) — raised either by the `assert_eq!` inside `add_smp` or by the
`.expect("failed to build all")` that unwraps `add_smp`'s `Result`.
`build_all` has no way to return an error value: its Rust signature is
`fn build_all(&self) -> Self`, so the `err` constructor below is never
produced (it exists to state that fact). -/
inductive BuildResult where
  | ok (cfg : QemuConfig)
  | err (msg : String)
  | panic (msg : String)
deriving DecidableEq

/-- Embeds `QemuConfig::build_all`, first part: clones the receiver
(dropping devices), then invokes the per-domain operations in the source's
fixed order, each fed from the receiver's fields, up to and including
`add_knobs`.  `u` stands for the `Uuid::new_v4()` value generated at the
top of the method, and `arch` for `std::env::consts::ARCH`. -/
def preBuild (arch : String) (u : Uuid) (self : QemuConfig) : QemuConfig :=
  let cfg := cloneConfig self
  let cfg := addCpuModel cfg self.cpu_model
  let cfg := addBios cfg self.bios
  let cfg := addKernel cfg self.kernel
  let cfg := addMachine cfg self.machine
  let cfg := addMemory cfg self.memory
  let cfg := addName cfg self.name
  let cfg := addSeccomp cfg self.seccomp_sandbox
  let cfg := addUuid cfg u
  let cfg := addNoGraphic cfg self.no_graphic
  let cfg := addRtc cfg self.rtc
  let cfg := addQmpSockets cfg self.qmp_sockets
  let cfg := addVga cfg self.vga
  let cfg := addIoThreads cfg self.io_threads
  let cfg := addIncoming cfg self.incoming
  let cfg := addPflashParam cfg self.pflashs
  let cfg := addPidFile cfg self.pid_file
  let cfg := addLogFile cfg self.log_file
  let cfg := addGlobalParams cfg self.global_params
  addKnobs arch cfg self.knobs

/-- Embeds `QemuConfig::build_all`, continued: the per-domain chain above,
then `add_smp` unwrapped with `.expect` (a panic on `Err`), then
`add_devices` on the receiver's own device list. -/
def buildAll (arch : String) (u : Uuid) (self : QemuConfig) : BuildResult :=
  match addSmp (preBuild arch u self) self.smp with
  | .ok cfg => .ok (addDevices cfg self.devices)
  | .err _ => .panic "failed to build all"
  | .assertFailed =>
      .panic "assertion failed: smp.sockets * smp.cores * smp.threads == smp.max_cpus"

/-- Embeds `qemu.rs` `Qemu`: binary path plus compiled argument vector. -/
structure Qemu where
  bin_path : String
  args : List String
deriving DecidableEq

/-- Embeds `Qemu::new`. -/
def Qemu.new (bin_path : String) (args : List String) : Qemu :=
  ⟨bin_path, args⟩

/-- Models the outcome of the OS-level `std::process::Command::spawn` call:
either a child process handle was obtained, or the spawn failed (binary
missing, not executable, ...). -/
inductive SpawnOutcome where
  | spawned
  | failure (msg : String)
deriving DecidableEq

/-- Outcome of `Qemu::launch` as observed by its caller: a normal `Ok(())`
return, a normal `Err` value, or a process abort raised by a panic. -/
inductive LaunchResult where
  | ok
  | err (msg : String)
  | panic (msg : String)
deriving DecidableEq

/-- Embeds `Qemu::launch`, with the OS spawn call abstracted as the `spawn`
oracle: the source builds the command from `bin_path` and `args`, calls
`spawn()`, unwraps the result with `.expect("Failed to spawn QEMU
process")` — a panic on failure — and then returns `Ok(())`.  It never
waits on the child and never constructs an `Err` value. -/
def launch (spawn : String → List String → SpawnOutcome) (q : Qemu) :
    LaunchResult :=
  match spawn q.bin_path q.args with
  | .spawned => .ok
  | .failure _ => .panic "Failed to spawn QEMU process"

/-! ### Characterization of `build_all` -/

/-- The concatenation, in `build_all`'s fixed call order, of every
domain's token contribution. -/
def buildContribs (arch : String) (u : Uuid) (self : QemuConfig) :
    List String :=
  cpuModelParams self.cpu_model
    ++ biosParams self.bios
    ++ kernelParams self.kernel
    ++ machineParams self.machine
    ++ memoryParams self.memory
    ++ nameParams self.name
    ++ seccompParams self.seccomp_sandbox
    ++ uuidParams u
    ++ noGraphicParams self.no_graphic
    ++ rtcParams self.rtc
    ++ qmpSocketsParams self.qmp_sockets
    ++ vgaParams self.vga
    ++ ioThreadsParams self.io_threads
    ++ incomingParams self.fds.length self.incoming
    ++ pflashParams self.pflashs
    ++ pidFileParams self.pid_file
    ++ logFileParams self.log_file
    ++ globalParamsTokens self.global_params
    ++ knobsParams arch self.memory self.machine self.knobs
    ++ smpParams self.smp
    ++ devicesParams self.devices

/-- The configuration produced by a successful `build_all`: the clone with
the devices dropped, the fd list grown by the fd-migration descriptor when
applicable, and the argument buffer extended by every domain contribution. -/
def builtConfig (arch : String) (u : Uuid) (self : QemuConfig) : QemuConfig :=
  { self with
    devices := [],
    fds := if self.incoming.migration_type = "fd" then self.fds ++ [self.incoming.fd]
           else self.fds,
    qemu_params := self.qemu_params ++ buildContribs arch u self }

/-- `add_incoming` in record-update form: the fd list grows in the fd
case, and the pushed tokens are `incomingParams` of the prior fd count. -/
theorem addIncoming_spec (cfg : QemuConfig) (inc : Incoming) :
    addIncoming cfg inc =
      { cfg with
        fds := if inc.migration_type = "fd" then cfg.fds ++ [inc.fd] else cfg.fds,
        qemu_params := cfg.qemu_params ++ incomingParams cfg.fds.length inc } := by
  unfold addIncoming incomingParams appendFds
  by_cases h1 : inc.migration_type = "exec" <;>
  by_cases h2 : inc.migration_type = "fd" <;>
  by_cases h3 : inc.migration_type = "defer" <;>
    simp_all [List.range_succ]

/-- The token contributions of the domains handled by `preBuild` (all of
`buildContribs` except the trailing smp and devices parts). -/
def preContribs (arch : String) (u : Uuid) (self : QemuConfig) : List String :=
  cpuModelParams self.cpu_model
    ++ biosParams self.bios
    ++ kernelParams self.kernel
    ++ machineParams self.machine
    ++ memoryParams self.memory
    ++ nameParams self.name
    ++ seccompParams self.seccomp_sandbox
    ++ uuidParams u
    ++ noGraphicParams self.no_graphic
    ++ rtcParams self.rtc
    ++ qmpSocketsParams self.qmp_sockets
    ++ vgaParams self.vga
    ++ ioThreadsParams self.io_threads
    ++ incomingParams self.fds.length self.incoming
    ++ pflashParams self.pflashs
    ++ pidFileParams self.pid_file
    ++ logFileParams self.log_file
    ++ globalParamsTokens self.global_params
    ++ knobsParams arch self.memory self.machine self.knobs

/-- `preBuild` in record-update form. -/
theorem preBuild_eq (arch : String) (u : Uuid) (self : QemuConfig) :
    preBuild arch u self =
      { self with
        devices := [],
        fds := if self.incoming.migration_type = "fd" then
                 self.fds ++ [self.incoming.fd]
               else self.fds,
        qemu_params := self.qemu_params ++ preContribs arch u self } := by
  unfold preBuild
  simp only [addCpuModel, addBios, addKernel, addMachine, addMemory, addName,
    addSeccomp, addUuid, addNoGraphic, addRtc, addQmpSockets, addVga,
    addIoThreads, addIncoming_spec, addPflashParam, addPidFile, addLogFile,
    addGlobalParams, addKnobs, cloneConfig]
  simp [preContribs, List.append_assoc]

/-- `build_all` panics (via `.expect`) exactly when `add_smp` returns the
recoverable `max_cpus < cpus` error, panics (via `assert_eq!`) when the
topology product disagrees with `max_cpus`, and otherwise returns the
`builtConfig` compilation. -/
theorem buildAll_char (arch : String) (u : Uuid) (self : QemuConfig) :
    buildAll arch u self =
      if 0 < self.smp.cpus ∧ 0 < self.smp.max_cpus ∧
          self.smp.max_cpus < self.smp.cpus then
        .panic "failed to build all"
      else if 0 < self.smp.cpus ∧
          (self.smp.sockets * self.smp.cores * self.smp.threads) % 2 ^ 32 ≠
            self.smp.max_cpus then
        .panic "assertion failed: smp.sockets * smp.cores * smp.threads == smp.max_cpus"
      else .ok (builtConfig arch u self) := by
  unfold buildAll
  rw [preBuild_eq]
  unfold addSmp
  by_cases hc : 0 < self.smp.cpus
  · by_cases he : self.smp.max_cpus > 0 ∧ self.smp.max_cpus < self.smp.cpus
    · simp [hc, he.1, he.2]
    · by_cases ha :
        (self.smp.sockets * self.smp.cores * self.smp.threads) % 4294967296 =
          self.smp.max_cpus
      · simp [hc, ha, he, addDevices, builtConfig, buildContribs, preContribs,
          smpParams, List.append_assoc]
      · simp [hc, ha, he, smpParams]
  · simp [hc, builtConfig, buildContribs, preContribs, smpParams, addDevices,
      List.append_assoc]

/-! ### Concrete inputs used by the claim theorems -/

/-- A fixed (non-nil) uuid standing for one `Uuid::new_v4()` outcome. -/
def uuidFixed : Uuid := ⟨false, "9f86d081-8c7d-4b7a-9e6b-3b1f6a4e9d2c"⟩

/-- A spawn oracle modelling a missing binary (ENOENT). -/
def spawnNotFound : String → List String → SpawnOutcome :=
  fun _ _ => .failure "No such file or directory (os error 2)"

/-- A spawn oracle modelling a successful spawn. -/
def spawnSuccess : String → List String → SpawnOutcome :=
  fun _ _ => .spawned

/-! ### Claims -/

/-- C2 counterexample: on `{cpus: 2, cores: 1, threads: 1, sockets: 2,
max_cpus: 4}` the SMP add operation does NOT succeed with the claimed
tokens — `sockets*cores*threads = 2 ≠ 4 = max_cpus`, so the unconditional
`assert_eq!` aborts (all three of sockets/cores/threads ARE set here, so
even the claim's own guarded reading of the check fires). -/
theorem c2_smp_example_asserts :
    addSmp QemuConfig.builder ⟨2, 1, 1, 2, 4⟩ ≠
      SmpResult.ok { QemuConfig.builder with
        qemu_params := ["-smp", "2,cores=1,threads=1,sockets=2,maxcpus=4"] } ∧
    addSmp QemuConfig.builder ⟨2, 1, 1, 2, 4⟩ = SmpResult.assertFailed := by
  constructor <;> decide

/-- C2 amended: for the SMP value `{cpus: 2, cores: 1, threads: 1,
sockets: 2, max_cpus: 4}` the SMP add operation hits the unconditional
`assert_eq!(sockets*cores*threads, max_cpus)` (2·1·1 ≠ 4) and aborts with
an assertion failure instead of emitting any token; no `Ok` value and no
recoverable error is produced for this input. -/
theorem c2_smp_example_amended (cfg : QemuConfig) :
    addSmp cfg ⟨2, 1, 1, 2, 4⟩ = SmpResult.assertFailed := by
  simp [addSmp]

/-- C5: appended file descriptors receive the deterministic offsets
`(previously appended count) + (own index) + 3`, independent of the raw
descriptor values; composing two appends shifts the second batch by the
first batch's length; and for `{migration_type: "fd", fd: 7}` with no
descriptor previously appended the incoming domain pushes exactly
`-S -incoming fd:3` (offset 3, not 7). -/
theorem c5_fd_offsets :
    (∀ (cfg : QemuConfig) (fds : List Int),
      (appendFds cfg fds).2 =
        (List.range fds.length).map fun i => ((cfg.fds.length : Int) + i + 3)) ∧
    (∀ (cfg : QemuConfig) (fds fds' : List Int),
      (appendFds (appendFds cfg fds).1 fds').2 =
        (List.range fds'.length).map fun i =>
          ((cfg.fds.length : Int) + (fds.length : Int) + i + 3)) ∧
    (∀ (cfg : QemuConfig), cfg.fds = [] →
      (addIncoming cfg ⟨"fd", 7, ""⟩).qemu_params =
        cfg.qemu_params ++ ["-S", "-incoming", "fd:3"]) := by
  refine ⟨fun cfg fds => rfl, fun cfg fds fds' => ?_, fun cfg h => ?_⟩
  · simp only [appendFds, List.length_append]
    congr 1
  · rw [addIncoming_spec]
    simp only [incomingParams, h]
    congr 1
    try decide

/-- C5 witness: the general offset law and the fd:3 emission at concrete
inputs (raw descriptor value 7 does not appear). -/
theorem c5_fd_offsets_witness :
    (appendFds QemuConfig.builder [7]).2 = [3] ∧
    (addIncoming QemuConfig.builder ⟨"fd", 7, ""⟩).qemu_params =
      ["-S", "-incoming", "fd:3"] := by
  have h := c5_fd_offsets
  exact ⟨by rw [h.1]; decide, by rw [h.2.2 QemuConfig.builder rfl]; decide⟩

/-- C8 (code bug evidence): for the valid RTC value `{base: "utc", clock:
"host", drift_fix: "slew"}` the RTC domain pushes its combined
`base=utc,driftfix=slew,clock=host` value as a single bare token WITHOUT a
preceding `-rtc` flag token: the compiled sequence for an otherwise-empty
configuration contains the bare value token and no flag for it. -/
theorem c8_rtc_value_without_flag :
    Rtc.valid ⟨"utc", "host", "slew"⟩ = true ∧
    (addRtc QemuConfig.builder ⟨"utc", "host", "slew"⟩).qemu_params =
      ["base=utc,driftfix=slew,clock=host"] ∧
    "-rtc" ∉ (addRtc QemuConfig.builder ⟨"utc", "host", "slew"⟩).qemu_params ∧
    buildAll "x86_64" uuidFixed
        { QemuConfig.builder with rtc := ⟨"utc", "host", "slew"⟩ } =
      .ok { QemuConfig.builder with
            rtc := ⟨"utc", "host", "slew"⟩,
            qemu_params := ["-uuid", "9f86d081-8c7d-4b7a-9e6b-3b1f6a4e9d2c",
                            "base=utc,driftfix=slew,clock=host"] } := by
  refine ⟨by decide, by decide, by decide, by decide⟩

/-- C9 (code bug evidence): when the OS spawn fails (binary missing or not
executable), `launch` aborts the process with the panic raised by
`.expect("Failed to spawn QEMU process")` — it never returns an `Err`
value to its caller; when the spawn succeeds it returns `Ok(())`
immediately without waiting on the child. -/
theorem c9_launch_panics_on_spawn_failure :
    launch spawnNotFound (Qemu.new "/nonexistent/qemu" ["-nographic"]) =
      LaunchResult.panic "Failed to spawn QEMU process" ∧
    launch spawnSuccess (Qemu.new "/usr/bin/qemu-system-x86_64" []) =
      LaunchResult.ok := by
  constructor <;> rfl

/-- C10: whenever `cpus > 0` and the recoverable `max_cpus < cpus` check
passes, the `assert_eq!(sockets * cores * threads, max_cpus)` consistency
check is evaluated unconditionally — also when sockets, cores and threads
are not all set — so `{cpus: 4, max_cpus: 8}` with zero topology fields
aborts with an assertion failure instead of emitting `-smp 4,maxcpus=8`,
while `{cpus: 4}` alone passes because `0 == 0`. -/
theorem c10_assert_unconditional :
    (∀ (cfg : QemuConfig) (smp : Smp), 0 < smp.cpus →
      (0 < smp.max_cpus → smp.cpus ≤ smp.max_cpus) →
      (smp.sockets * smp.cores * smp.threads) % 4294967296 ≠ smp.max_cpus →
      addSmp cfg smp = SmpResult.assertFailed) ∧
    addSmp QemuConfig.builder ⟨4, 0, 0, 0, 8⟩ = SmpResult.assertFailed ∧
    addSmp QemuConfig.builder ⟨4, 0, 0, 0, 0⟩ =
      SmpResult.ok { QemuConfig.builder with qemu_params := ["-smp", "4"] } := by
  refine ⟨fun cfg smp hc hv ha => ?_, by decide, by decide⟩
  unfold addSmp
  have hnv : ¬(smp.max_cpus > 0 ∧ smp.max_cpus < smp.cpus) := by
    rintro ⟨h1, h2⟩
    exact absurd (hv h1) (not_le.mpr h2)
  simp [hc, ha, hnv]

/-- C10 witness: the unconditional-assert law applied at
`{cpus: 3, max_cpus: 5}` with no topology fields set. -/
theorem c10_assert_unconditional_witness :
    addSmp QemuConfig.builder ⟨3, 0, 0, 0, 5⟩ = SmpResult.assertFailed :=
  c10_assert_unconditional.1 QemuConfig.builder ⟨3, 0, 0, 0, 5⟩
    (by decide) (by decide) (by decide)

/-- C3 counterexample: on `{cpus: 4, max_cpus: 2}` the SMP add operation
does return the recoverable validation error, but `compile()` does NOT
surface it to its caller as an error value: `build_all` unwraps the
`Result` with `.expect("failed to build all")`, so the whole process
panics instead. -/
theorem c3_validation_error_not_surfaced :
    addSmp (preBuild "x86_64" uuidFixed
        { QemuConfig.builder with smp := ⟨4, 0, 0, 0, 2⟩ }) ⟨4, 0, 0, 0, 2⟩ =
      SmpResult.err "smp.max_cpus should >= smp.cpus" ∧
    buildAll "x86_64" uuidFixed
        { QemuConfig.builder with smp := ⟨4, 0, 0, 0, 2⟩ } =
      BuildResult.panic "failed to build all" := by
  constructor <;> decide

/-- C3 amended: for every configuration with `cpus > 0` and
`0 < max_cpus < cpus`, `add_smp` returns a recoverable validation error,
but `build_all` unwraps it with `.expect`, so compilation aborts by a
panic — producing no (partial) compiled record — rather than returning the
error value to the caller. -/
theorem c3_smp_validation_aborts (arch : String) (u : Uuid)
    (cfg : QemuConfig) (hc : 0 < cfg.smp.cpus) (hm : 0 < cfg.smp.max_cpus)
    (hlt : cfg.smp.max_cpus < cfg.smp.cpus) :
    addSmp (preBuild arch u cfg) cfg.smp =
      SmpResult.err "smp.max_cpus should >= smp.cpus" ∧
    buildAll arch u cfg = BuildResult.panic "failed to build all" := by
  constructor
  · unfold addSmp
    simp [hc, hm, hlt]
  · rw [buildAll_char]
    simp [hc, hm, hlt]

/-- C3 amended witness: the abort law at the concrete configuration
`{smp: {cpus: 4, max_cpus: 2}}`. -/
theorem c3_smp_validation_aborts_witness :
    addSmp (preBuild "aarch64" uuidFixed
        { QemuConfig.builder with smp := ⟨4, 0, 0, 0, 2⟩ }) ⟨4, 0, 0, 0, 2⟩ =
      SmpResult.err "smp.max_cpus should >= smp.cpus" ∧
    buildAll "aarch64" uuidFixed
        { QemuConfig.builder with smp := ⟨4, 0, 0, 0, 2⟩ } =
      BuildResult.panic "failed to build all" :=
  c3_smp_validation_aborts "aarch64" uuidFixed
    { QemuConfig.builder with smp := ⟨4, 0, 0, 0, 2⟩ }
    (by decide) (by decide) (by decide)

/-- C4: with `memory.size = "2G"`, hugepages and mem_shared set (and
mem_prealloc clear), on an allow-listed architecture the knobs memory
sub-algorithm emits the `-object
memory-backend-file,id=dimm1,size=2G,mem-path=/dev/hugepages,share=on`
pair followed by `-numa node,memdev=dimm1` when the machine type is not
"microvm", and the same object pair followed by `-machine
memory-backend=dimm1` when the machine type is "microvm". -/
theorem c4_knobs_memory (arch : String) (mem : Memory) (machine : Machine)
    (k : Knobs)
    (harch : arch = "x86_64" ∨ arch = "powerpc64" ∨ arch = "aarch64" ∨
      arch = "x86")
    (hsize : mem.size = "2G") (hhp : k.hugepages = true)
    (hsh : k.mem_shared = true) (hpre : k.mem_prealloc = false) :
    (machine.machine_type ≠ "microvm" →
      knobsMemoryParams arch mem machine k =
        ["-object",
         "memory-backend-file,id=dimm1,size=2G,mem-path=/dev/hugepages,share=on",
         "-numa", "node,memdev=dimm1"]) ∧
    (machine.machine_type = "microvm" →
      knobsMemoryParams arch mem machine k =
        ["-object",
         "memory-backend-file,id=dimm1,size=2G,mem-path=/dev/hugepages,share=on",
         "-machine", "memory-backend=dimm1"]) := by
  constructor <;> intro hm <;>
    rcases harch with h | h | h | h <;> subst h <;>
    simp [knobsMemoryParams, isDimmSupported, hsize, hhp, hsh, hpre, hm]

/-- C4 witness: the two emission laws at `arch = "x86_64"`,
`memory = {size: "2G"}`, knobs `{hugepages, mem_shared}`, with machine
types "pc" and "microvm". -/
theorem c4_knobs_memory_witness :
    knobsMemoryParams "x86_64" ⟨"2G", 0, "", ""⟩ ⟨"pc", "", ""⟩
        { Knobs.builder with hugepages := true, mem_shared := true } =
      ["-object",
       "memory-backend-file,id=dimm1,size=2G,mem-path=/dev/hugepages,share=on",
       "-numa", "node,memdev=dimm1"] ∧
    knobsMemoryParams "x86_64" ⟨"2G", 0, "", ""⟩ ⟨"microvm", "", ""⟩
        { Knobs.builder with hugepages := true, mem_shared := true } =
      ["-object",
       "memory-backend-file,id=dimm1,size=2G,mem-path=/dev/hugepages,share=on",
       "-machine", "memory-backend=dimm1"] :=
  ⟨(c4_knobs_memory "x86_64" ⟨"2G", 0, "", ""⟩ ⟨"pc", "", ""⟩
      { Knobs.builder with hugepages := true, mem_shared := true }
      (Or.inl rfl) rfl rfl rfl rfl).1 (by decide),
   (c4_knobs_memory "x86_64" ⟨"2G", 0, "", ""⟩ ⟨"microvm", "", ""⟩
      { Knobs.builder with hugepages := true, mem_shared := true }
      (Or.inl rfl) rfl rfl rfl rfl).2 rfl⟩

/-- The `build_all` chain with exactly two domain calls exchanged: the
no-graphic domain (`add_no_graphic`, position 9) and the knobs domain
(`add_knobs`, position 19).  Used to test the claim that exchanging any
two emitting domains changes the compiled sequence. -/
def preBuildSwapped (arch : String) (u : Uuid) (self : QemuConfig) :
    QemuConfig :=
  let cfg := cloneConfig self
  let cfg := addCpuModel cfg self.cpu_model
  let cfg := addBios cfg self.bios
  let cfg := addKernel cfg self.kernel
  let cfg := addMachine cfg self.machine
  let cfg := addMemory cfg self.memory
  let cfg := addName cfg self.name
  let cfg := addSeccomp cfg self.seccomp_sandbox
  let cfg := addUuid cfg u
  let cfg := addKnobs arch cfg self.knobs
  let cfg := addRtc cfg self.rtc
  let cfg := addQmpSockets cfg self.qmp_sockets
  let cfg := addVga cfg self.vga
  let cfg := addIoThreads cfg self.io_threads
  let cfg := addIncoming cfg self.incoming
  let cfg := addPflashParam cfg self.pflashs
  let cfg := addPidFile cfg self.pid_file
  let cfg := addLogFile cfg self.log_file
  let cfg := addGlobalParams cfg self.global_params
  addNoGraphic cfg self.no_graphic

/-- `build_all` with the no-graphic and knobs domains exchanged. -/
def buildAllSwapped (arch : String) (u : Uuid) (self : QemuConfig) :
    BuildResult :=
  match addSmp (preBuildSwapped arch u self) self.smp with
  | .ok cfg => .ok (addDevices cfg self.devices)
  | .err _ => .panic "failed to build all"
  | .assertFailed =>
      .panic "assertion failed: smp.sockets * smp.cores * smp.threads == smp.max_cpus"

/-- A configuration on which two distinct domains both emit: the
no-graphic domain and a knobs domain whose only set knob is `no_graphic`. -/
def cfgTwoNoGraphic : QemuConfig :=
  { QemuConfig.builder with
    no_graphic := true,
    knobs := { Knobs.builder with no_graphic := true } }

/-- C1 counterexample: exchanging two emitting domains need NOT change the
output sequence — on `cfgTwoNoGraphic` both the no-graphic domain and the
knobs domain emit (each contributes `-nographic`), yet `build_all` with
the two domains exchanged compiles to exactly the same result. -/
theorem c1_swap_keeps_output :
    noGraphicParams cfgTwoNoGraphic.no_graphic ≠ [] ∧
    knobsParams "x86_64" cfgTwoNoGraphic.memory cfgTwoNoGraphic.machine
      cfgTwoNoGraphic.knobs ≠ [] ∧
    buildAllSwapped "x86_64" uuidFixed cfgTwoNoGraphic =
      buildAll "x86_64" uuidFixed cfgTwoNoGraphic := by
  refine ⟨by decide, by decide, by decide⟩

/-- C1 amended: `build_all` appends each domain's contribution in exactly
the fixed source order — cpu model, bios, kernel, machine, memory, guest
name, seccomp sandbox, uuid, no-graphic, RTC, QMP sockets, VGA, IO
threads, incoming, pflash, pidfile, logfile, global params, knobs, SMP,
and devices last — for every configuration on which it succeeds.
(Exchanging two emitting domains changes the output in general, but not
always: two domains may contribute identical token lists, as the
counterexample shows.) -/
theorem c1_fixed_order (arch : String) (u : Uuid) (cfg c : QemuConfig)
    (h : buildAll arch u cfg = .ok c) :
    c.qemu_params =
      cfg.qemu_params
        ++ cpuModelParams cfg.cpu_model
        ++ biosParams cfg.bios
        ++ kernelParams cfg.kernel
        ++ machineParams cfg.machine
        ++ memoryParams cfg.memory
        ++ nameParams cfg.name
        ++ seccompParams cfg.seccomp_sandbox
        ++ uuidParams u
        ++ noGraphicParams cfg.no_graphic
        ++ rtcParams cfg.rtc
        ++ qmpSocketsParams cfg.qmp_sockets
        ++ vgaParams cfg.vga
        ++ ioThreadsParams cfg.io_threads
        ++ incomingParams cfg.fds.length cfg.incoming
        ++ pflashParams cfg.pflashs
        ++ pidFileParams cfg.pid_file
        ++ logFileParams cfg.log_file
        ++ globalParamsTokens cfg.global_params
        ++ knobsParams arch cfg.memory cfg.machine cfg.knobs
        ++ smpParams cfg.smp
        ++ devicesParams cfg.devices := by
  rw [buildAll_char] at h
  split_ifs at h
  cases h
  simp [builtConfig, buildContribs, List.append_assoc]

/-- C1 amended witness: the fixed-order law at the all-defaults
configuration (only the uuid domain emits). -/
theorem c1_fixed_order_witness :
    (builtConfig "x86_64" uuidFixed QemuConfig.builder).qemu_params =
      QemuConfig.builder.qemu_params
        ++ cpuModelParams QemuConfig.builder.cpu_model
        ++ biosParams QemuConfig.builder.bios
        ++ kernelParams QemuConfig.builder.kernel
        ++ machineParams QemuConfig.builder.machine
        ++ memoryParams QemuConfig.builder.memory
        ++ nameParams QemuConfig.builder.name
        ++ seccompParams QemuConfig.builder.seccomp_sandbox
        ++ uuidParams uuidFixed
        ++ noGraphicParams QemuConfig.builder.no_graphic
        ++ rtcParams QemuConfig.builder.rtc
        ++ qmpSocketsParams QemuConfig.builder.qmp_sockets
        ++ vgaParams QemuConfig.builder.vga
        ++ ioThreadsParams QemuConfig.builder.io_threads
        ++ incomingParams QemuConfig.builder.fds.length QemuConfig.builder.incoming
        ++ pflashParams QemuConfig.builder.pflashs
        ++ pidFileParams QemuConfig.builder.pid_file
        ++ logFileParams QemuConfig.builder.log_file
        ++ globalParamsTokens QemuConfig.builder.global_params
        ++ knobsParams "x86_64" QemuConfig.builder.memory
            QemuConfig.builder.machine QemuConfig.builder.knobs
        ++ smpParams QemuConfig.builder.smp
        ++ devicesParams QemuConfig.builder.devices :=
  c1_fixed_order "x86_64" uuidFixed QemuConfig.builder
    (builtConfig "x86_64" uuidFixed QemuConfig.builder) (by decide)

/-- A configuration whose migration type is "fd": recompiling it shifts
the emitted descriptor offset. -/
def cfgFdMig : QemuConfig :=
  { QemuConfig.builder with incoming := ⟨"fd", 9, ""⟩ }

/-- C6 counterexample: on `cfgFdMig` (fd migration, descriptor 9) the
second `compile()` does NOT append an exact second copy of every argument:
the first compilation emits `... fd:3`, the recompilation appends
`... fd:4` (the descriptor list grew), so the second result is not the
first's argument list duplicated in sequence. -/
theorem c6_fd_offset_shifts :
    buildAll "x86_64" uuidFixed cfgFdMig =
      .ok (builtConfig "x86_64" uuidFixed cfgFdMig) ∧
    buildAll "x86_64" uuidFixed (builtConfig "x86_64" uuidFixed cfgFdMig) =
      .ok (builtConfig "x86_64" uuidFixed
            (builtConfig "x86_64" uuidFixed cfgFdMig)) ∧
    (builtConfig "x86_64" uuidFixed cfgFdMig).qemu_params =
      ["-uuid", "9f86d081-8c7d-4b7a-9e6b-3b1f6a4e9d2c",
       "-S", "-incoming", "fd:3"] ∧
    (builtConfig "x86_64" uuidFixed
        (builtConfig "x86_64" uuidFixed cfgFdMig)).qemu_params =
      ["-uuid", "9f86d081-8c7d-4b7a-9e6b-3b1f6a4e9d2c",
       "-S", "-incoming", "fd:3",
       "-uuid", "9f86d081-8c7d-4b7a-9e6b-3b1f6a4e9d2c",
       "-S", "-incoming", "fd:4"] ∧
    (builtConfig "x86_64" uuidFixed
        (builtConfig "x86_64" uuidFixed cfgFdMig)).qemu_params ≠
      (builtConfig "x86_64" uuidFixed cfgFdMig).qemu_params ++
        (builtConfig "x86_64" uuidFixed cfgFdMig).qemu_params := by
  refine ⟨by decide, by decide, by decide, by decide, by decide⟩

/-- C6 amended: `compile()` is not idempotent — recompiling an
already-compiled record appends a fresh block of domain contributions
after the existing arguments instead of replacing them.  For every
configuration without fd migration and with an empty device list (the
clone inside `build_all` silently drops devices), the appended block
equals the block the first call appended, so the argument list doubles;
with fd migration the recompiled incoming argument uses the next
descriptor offset, so the appended block differs (see the
counterexample). -/
theorem c6_not_idempotent (arch : String) (u : Uuid) (cfg c1 : QemuConfig)
    (hdev : cfg.devices = []) (hmig : cfg.incoming.migration_type ≠ "fd")
    (h : buildAll arch u cfg = .ok c1) :
    buildAll arch u c1 = .ok (builtConfig arch u c1) ∧
    c1.qemu_params = cfg.qemu_params ++ buildContribs arch u cfg ∧
    (builtConfig arch u c1).qemu_params =
      cfg.qemu_params ++ buildContribs arch u cfg ++ buildContribs arch u cfg := by
  rw [buildAll_char] at h
  split_ifs at h with h1 h2
  cases h
  refine ⟨?_, rfl, ?_⟩
  · rw [buildAll_char]
    simp only [builtConfig]
    simp [h1, h2]
    exact fun hcpus => not_not.mp fun hne => h2 ⟨hcpus, hne⟩
  · simp [builtConfig, buildContribs, hdev, hmig, devicesParams,
      List.append_assoc]

/-- A simple fd-free configuration for the idempotency witness. -/
def cfgNamed : QemuConfig := { QemuConfig.builder with name := "vm" }

/-- C6 amended witness: the non-idempotency law at `cfgNamed`. -/
theorem c6_not_idempotent_witness :
    buildAll "x86_64" uuidFixed (builtConfig "x86_64" uuidFixed cfgNamed) =
      .ok (builtConfig "x86_64" uuidFixed
            (builtConfig "x86_64" uuidFixed cfgNamed)) ∧
    (builtConfig "x86_64" uuidFixed cfgNamed).qemu_params =
      cfgNamed.qemu_params ++ buildContribs "x86_64" uuidFixed cfgNamed ∧
    (builtConfig "x86_64" uuidFixed
        (builtConfig "x86_64" uuidFixed cfgNamed)).qemu_params =
      cfgNamed.qemu_params ++ buildContribs "x86_64" uuidFixed cfgNamed
        ++ buildContribs "x86_64" uuidFixed cfgNamed :=
  c6_not_idempotent "x86_64" uuidFixed cfgNamed
    (builtConfig "x86_64" uuidFixed cfgNamed) rfl (by decide) (by decide)

/-- A valid firmware-config entry (non-empty name, exactly the string
variant set). -/
def fwEntry : FwCfg := ⟨"opt/test", "", "hello"⟩

/-- A configuration carrying one valid firmware-config entry. -/
def cfgFw : QemuConfig := { QemuConfig.builder with fw_cfgs := [fwEntry] }

/-- C7 counterexample: `build_all` never invokes `add_fwcfg` — for a
configuration whose only populated domain is a VALID firmware-config
entry, the compiled sequence contains no `-fw_cfg` token at all, even
though the (uninvoked) firmware-config operation would emit the flag and
its joined value. -/
theorem c7_fwcfg_absent :
    FwCfg.valid fwEntry = true ∧
    buildAll "x86_64" uuidFixed cfgFw =
      .ok (builtConfig "x86_64" uuidFixed cfgFw) ∧
    "-fw_cfg" ∉ (builtConfig "x86_64" uuidFixed cfgFw).qemu_params ∧
    (addFwCfg QemuConfig.builder [fwEntry]).qemu_params =
      ["-fw_cfg", "name=opt/test,string=hello"] := by
  refine ⟨by decide, by decide, by decide, by decide⟩

/-- C7 amended: `compile()` invokes every per-domain add operation EXCEPT
the firmware-config one: the `fw_cfgs` field has no influence on the
compiled output (it is carried through unchanged), while the standalone
`add_fwcfg` operation would emit each valid entry's `-fw_cfg` flag and
joined value. -/
theorem c7_fwcfg_never_invoked :
    (∀ (arch : String) (u : Uuid) (cfg : QemuConfig) (fs : List FwCfg),
      buildAll arch u { cfg with fw_cfgs := fs } =
        match buildAll arch u cfg with
        | BuildResult.ok c => BuildResult.ok { c with fw_cfgs := fs }
        | r => r) ∧
    (addFwCfg QemuConfig.builder [fwEntry]).qemu_params =
      ["-fw_cfg", "name=opt/test,string=hello"] := by
  refine ⟨fun arch u cfg fs => ?_, by decide⟩
  rw [buildAll_char, buildAll_char]
  by_cases h1 : 0 < cfg.smp.cpus ∧ 0 < cfg.smp.max_cpus ∧
      cfg.smp.max_cpus < cfg.smp.cpus
  · simp [h1]
  · by_cases h2 : 0 < cfg.smp.cpus ∧
        (cfg.smp.sockets * cfg.smp.cores * cfg.smp.threads) % 4294967296 ≠
          cfg.smp.max_cpus
    · simp [h1, h2]
      split <;> rfl
    · simp [h1, h2, builtConfig, buildContribs]

end QemuLaunch
